import Mathlib

/-!
Verification of the position-to-place resolution pipeline of the
OpenGuessr-Helper userscript (src/OpenGuessr_Helper.js), as a shallow
embedding in Lean 4.

Coordinates are modelled as exact rationals, timestamps as natural
numbers of milliseconds, and the pending timers of the script as
optional absolute expiry times.  The Haversine distance is modelled
over the reals with the actual trigonometric functions.
-/

namespace OpenGuessr

/-! ## Configuration constants (source lines 16-18) -/

def DISTANCE_THRESHOLD_METERS : ℝ := 100

def NOMINATIM_ERROR_THRESHOLD : ℕ := 3

def NOMINATIM_ERROR_RESET_TIMEOUT : ℕ := 30000

/-! ## JavaScript string and number primitives used by the script -/

/-- Model of the JavaScript idiom "a || b" on an optional string field:
the default is taken when the field is missing or empty (falsy). -/
def jsOrStr : Option String → String → String
  | some s, d => if s = "" then d else s
  | none, d => d

/-- Model of JavaScript String.prototype.includes: some suffix of s has
sub as a prefix. -/
def containsSubstr (s sub : String) : Bool :=
  (List.range (s.length + 1)).any fun i => sub.data.isPrefixOf (s.data.drop i)

/-- A JavaScript number as far as the script observes it: NaN, a signed
infinity, or a finite value (modelled as an exact rational). -/
inductive JSNum
  | nan
  | inf (neg : Bool)
  | fin (q : ℚ)
  deriving DecidableEq

/-- Model of the JavaScript isNaN test on a number. -/
def JSNum.isNaN : JSNum → Bool
  | .nan => true
  | _ => false

/-- Leading and trailing whitespace removal on a character list. -/
def jsTrim (l : List Char) : List Char :=
  ((l.dropWhile Char.isWhitespace).reverse.dropWhile Char.isWhitespace).reverse

/-- Splits a character list on a separator character; n separators give
n + 1 (possibly empty) chunks, as JavaScript String.prototype.split. -/
def splitOnChar (c : Char) : List Char → List (List Char)
  | [] => [[]]
  | x :: xs =>
      let r := splitOnChar c xs
      if x = c then [] :: r
      else
        match r with
        | [] => [[x]]
        | h :: t => (x :: h) :: t

/-- Numeric value of a digit list read in base 10 (empty gives 0). -/
def digitsVal (l : List Char) : ℕ :=
  l.foldl (fun n c => n * 10 + (c.toNat - 48)) 0

/-- Parses an unsigned decimal literal: digits, or digits.digits with at
least one digit present.  Returns none when the characters are not of
this shape.  (Hexadecimal and exponent forms of the JavaScript grammar
are not modelled; the script only ever meets plain decimal
components.) -/
def parseUnsignedDec (l : List Char) : Option ℚ :=
  match splitOnChar '.' l with
  | [ip] =>
      if ip ≠ [] ∧ ip.all Char.isDigit then some (digitsVal ip) else none
  | [ip, fp] =>
      if (ip ≠ [] ∨ fp ≠ []) ∧ ip.all Char.isDigit ∧ fp.all Char.isDigit then
        some ((digitsVal ip : ℚ) + (digitsVal fp : ℚ) / (10 : ℚ) ^ fp.length)
      else none
  | _ => none

/-- Model of the JavaScript Number(string) conversion on the forms the
script can meet: whitespace is trimmed, the empty string is 0, an
optional sign precedes either the literal Infinity or a decimal
literal, and anything else is NaN. -/
def toNumber (s : String) : JSNum :=
  let t := jsTrim s.data
  if t = [] then .fin 0
  else
    let neg := t.head? = some '-'
    let body := if t.head? = some '-' ∨ t.head? = some '+' then t.tail else t
    if body = "Infinity".data then .inf neg
    else
      match parseUnsignedDec body with
      | some q => .fin (if neg then -q else q)
      | none => .nan

/-- Six digits with leading zeros, for the fractional part of toFixed. -/
def pad6 (n : ℕ) : String :=
  let s := toString n
  String.mk (List.replicate (6 - s.length) '0') ++ s

/-- toFixed(6) on a nonnegative rational: round to the nearest multiple
of 10 ^ (-6), ties upward, then print with exactly six decimals.  For
q = n / d with d positive and n nonnegative the rounded value is the
integer part of (n * 2000000 + d) / (2 * d), computed here by integer
division directly on the numerator and denominator. -/
def toFixed6Nonneg (q : ℚ) : String :=
  let n := ((q.num * 2000000 + (q.den : Int)) / (2 * (q.den : Int))).toNat
  toString (n / 1000000) ++ "." ++ pad6 (n % 1000000)

/-- Model of JavaScript Number.prototype.toFixed(6): the sign is taken
first, then the magnitude is rounded (ties away from zero) and printed
with six decimals. -/
def toFixed6 (q : ℚ) : String :=
  if q.num < 0 then "-" ++ toFixed6Nonneg (-q) else toFixed6Nonneg q

/-! ## Data model -/

/-- A coordinate as extracted from the panorama iframe. -/
structure Coord where
  lat : ℚ
  lng : ℚ
  deriving DecidableEq

/-- One entry of locationCache (source lines 534-539): source
coordinate, resolved place name and storage timestamp. -/
structure CacheEntry where
  lat : ℚ
  lng : ℚ
  name : String
  timestamp : ℕ
  deriving DecidableEq

/-- locationCache is a JavaScript object keyed by the quantized
coordinate string; modelled as an association list. -/
abbrev LocationCache := List (String × CacheEntry)

/-- Key lookup in the cache object. -/
def lookupKey : LocationCache → String → Option CacheEntry
  | [], _ => none
  | (k, e) :: rest, key => if k = key then some e else lookupKey rest key

/-- Key insert-or-overwrite in the cache object. -/
def insertKey : LocationCache → String → CacheEntry → LocationCache
  | [], k, v => [(k, v)]
  | (k', v') :: rest, k, v =>
      if k' = k then (k, v) :: rest else (k', v') :: insertKey rest k v

/-- The cache key of a coordinate (source line 506): both components
printed with toFixed(6) and joined by a comma. -/
def cachedKey (lat lng : ℚ) : String :=
  toFixed6 lat ++ "," ++ toFixed6 lng

/-! ## Nominatim response model and place-name composition -/

/-- The structured address object of a Nominatim reverse-geocoding
response, restricted to the fields the script reads. -/
structure Address where
  country : Option String := none
  city : Option String := none
  town : Option String := none
  village : Option String := none
  deriving DecidableEq

/-- The parsed JSON body of a Nominatim response, restricted to the
fields the script reads. -/
structure NominatimData where
  address : Option Address := none
  display_name : Option String := none
  deriving DecidableEq

/-- The country component (source line 521): address.country or empty. -/
def countryOf (a : Address) : String := jsOrStr a.country ""

/-- The locality component (source line 522): the first truthy one of
city, town, village, or empty. -/
def cityOf (a : Address) : String :=
  jsOrStr a.city (jsOrStr a.town (jsOrStr a.village ""))

/-- The composed place name (source lines 519-529 and 542): with a
structured address, country comma locality, or the country alone when
no locality is truthy; without one, display_name or the placeholder. -/
def composePlaceName (data : NominatimData) : String :=
  match data.address with
  | some a => if cityOf a ≠ "" then countryOf a ++ ", " ++ cityOf a else countryOf a
  | none => jsOrStr data.display_name "No details found"

/-- The store condition (source lines 531 and 543): in the structured
branch the composed name must differ from the two placeholders and not
contain the unavailability marker; in the display_name branch it must
differ from the fallback placeholder. -/
def storeB (data : NominatimData) : Bool :=
  match data.address with
  | some _ =>
      let pn := composePlaceName data
      decide (pn ≠ "Unknown") && decide (pn ≠ "No details found") &&
        !(containsSubstr pn "Location Name Unavailable")
  | none => decide (composePlaceName data ≠ "No details found")

/-! ## Pipeline state and the performRequest step -/

/-- The CSS status class of the info panel. -/
inductive PanelStatus
  | connected
  | disconnected
  | error
  deriving DecidableEq

/-- The mutable module state read and written by performRequest: the
location cache, the last valid place name, the consecutive error
counter, the pending 30 s error-reset timer (as an absolute expiry
time), the panel status class and the info text. -/
structure St where
  locationCache : LocationCache
  lastValidPlaceName : String
  nominatimErrorCount : ℕ
  resetTimerExpiry : Option ℕ
  panel : PanelStatus
  infoText : String
  deriving DecidableEq

/-- The initial module state (source lines 27-35 and 358-364). -/
def initSt : St where
  locationCache := []
  lastValidPlaceName := "Unknown"
  nominatimErrorCount := 0
  resetTimerExpiry := none
  panel := .disconnected
  infoText := "Location: Waiting..."

/-- Outcome of the network fetch: a parsed response, or a transport or
HTTP failure (which the script turns into a thrown exception). -/
inductive FetchResult
  | ok (data : NominatimData)
  | err
  deriving DecidableEq

/-- Which path a firing of performRequest takes: the cache branch or
the network branch with a given fetch outcome. -/
inductive Resolution
  | cached
  | network (r : FetchResult)
  deriving DecidableEq

/-- One firing of performRequest (source lines 501-582), given the path
taken and the current time.  The cache branch copies the cached name;
the network success branch composes the name, conditionally stores it,
zeroes the error counter and re-arms the 30 s reset timer; the network
failure branch increments the counter and renders either the
unavailability text with the error class (at the threshold) or the
last-known fallback text. -/
def performRequest (st : St) (pos : Coord) (res : Resolution) (now : ℕ) : St :=
  match res with
  | .cached =>
      match lookupKey st.locationCache (cachedKey pos.lat pos.lng) with
      | some e =>
          { st with lastValidPlaceName := e.name, infoText := "Location: " ++ e.name }
      | none => st
  | .network (.ok data) =>
      let placeName := composePlaceName data
      { st with
          locationCache :=
            if storeB data then
              insertKey st.locationCache (cachedKey pos.lat pos.lng)
                ⟨pos.lat, pos.lng, placeName, now⟩
            else st.locationCache
          lastValidPlaceName :=
            if storeB data then placeName else st.lastValidPlaceName
          nominatimErrorCount := 0
          resetTimerExpiry := some (now + NOMINATIM_ERROR_RESET_TIMEOUT)
          infoText := "Location: " ++ placeName }
  | .network .err =>
      let cnt := st.nominatimErrorCount + 1
      if NOMINATIM_ERROR_THRESHOLD ≤ cnt then
        { st with
            nominatimErrorCount := cnt
            panel := .error
            infoText := "Location: Location Service Unavailable" }
      else
        { st with
            nominatimErrorCount := cnt
            infoText := "Location: " ++
              (if st.lastValidPlaceName ≠ "Unknown" then
                st.lastValidPlaceName ++ " (Last Known)"
              else "Location Name Unavailable") }

/-- The status part of updateMinimap (source lines 456-471): every
position update removes the disconnected and error classes and adds
connected, independently of any resolution outcome. -/
def updateMinimapStatus (st : St) : St :=
  { st with panel := .connected }

/-- Firing of the pending 30 s error-reset timer (source lines
560-562): when its expiry has passed, its callback zeroes the error
counter. -/
def fired (st : St) (now : ℕ) : St :=
  match st.resetTimerExpiry with
  | some e =>
      if e ≤ now then { st with nominatimErrorCount := 0, resetTimerExpiry := none }
      else st
  | none => st

/-- A timestamped resolution event: the time at which the debounced
performRequest fires, the coordinate, and the path taken. -/
structure TEvent where
  time : ℕ
  pos : Coord
  res : Resolution

/-- Runs a time-ordered list of resolution events, firing the expired
reset timer before each one, as the single-threaded scheduler does. -/
def runEvents (st : St) : List TEvent → St
  | [] => st
  | e :: rest => runEvents (performRequest (fired st e.time) e.pos e.res e.time) rest

/-! ## Debounce model (source lines 495-498 and 584-585) -/

/-- State machine of the nominatimDebounceTimeout handle over a
time-ordered list of updateInfoPanel call times.  Each call first lets
an already expired pending timer fire (collecting its firing time),
then cancels any still-pending timer and schedules a fresh one 2000 ms
after itself; a timer still pending at the end of the run fires.
Returns the list of times at which performRequest actually fires; each
firing issues at most one network request. -/
def debounceRun : Option ℕ → List ℕ → List ℕ
  | pending, [] => (match pending with | some e => [e] | none => [])
  | pending, t :: rest =>
      match pending with
      | some e =>
          if e ≤ t then e :: debounceRun (some (t + 2000)) rest
          else debounceRun (some (t + 2000)) rest
      | none => debounceRun (some (t + 2000)) rest

/-! ## PositionSource model (source lines 41-51 and 311-327) -/

/-- An iframe element as the script observes it: its src attribute and
the query parameters of that URL (the params field models what
new URL(src).searchParams yields once src parses as a URL). -/
structure Iframe where
  src : String
  params : List (String × String)
  deriving DecidableEq

/-- First query parameter with the given name, as searchParams.get. -/
def getParam : List (String × String) → String → Option String
  | [], _ => none
  | (k, v) :: rest, key => if k = key then some v else getParam rest key

/-- findStreetViewIframe (source lines 41-51): the first iframe whose
src is truthy and contains the panorama-embed URL pattern. -/
def findStreetViewIframe : List Iframe → Option Iframe
  | [] => none
  | f :: rest =>
      if f.src ≠ "" ∧ containsSubstr f.src "google.com/maps/embed/v1/streetview" then some f
      else findStreetViewIframe rest

/-- Component i of the location parameter: the parameter is split on
commas, each component converted by Number, and a missing component
behaves as NaN (reading an out-of-range array slot yields undefined,
whose isNaN test is true). -/
def locComponent (loc : String) (i : ℕ) : JSNum :=
  (((splitOnChar ',' loc.data).map (fun l => toNumber (String.mk l))).get? i).getD .nan

/-- PositionModule._getCurrentPosition (source lines 311-327): find the
panorama iframe, read its location parameter, reject a falsy value,
split and convert the first two components, and return them when
neither is NaN. -/
def getCurrentPosition (frames : List Iframe) : Option (JSNum × JSNum) :=
  match findStreetViewIframe frames with
  | none => none
  | some f =>
      match getParam f.params "location" with
      | none => none
      | some loc =>
          if loc = "" then none
          else
            let lat := locComponent loc 0
            let lng := locComponent loc 1
            if lat.isNaN = false ∧ lng.isNaN = false then some (lat, lng) else none

/-! ## DistanceGate (source lines 54-73) -/

/-- Model of Math.atan2: arctangent of y/x corrected by quadrant. -/
noncomputable def atan2 (y x : ℝ) : ℝ :=
  if 0 < x then Real.arctan (y / x)
  else if x < 0 ∧ 0 ≤ y then Real.arctan (y / x) + Real.pi
  else if x < 0 then Real.arctan (y / x) - Real.pi
  else if 0 < y then Real.pi / 2
  else if y < 0 then -(Real.pi / 2)
  else 0

/-- calculateDistance (source lines 54-67): the Haversine great-circle
distance in meters with Earth radius 6371e3. -/
noncomputable def calculateDistance (lat1 lng1 lat2 lng2 : ℝ) : ℝ :=
  let R : ℝ := 6371000
  let phi1 := lat1 * Real.pi / 180
  let phi2 := lat2 * Real.pi / 180
  let dphi := (lat2 - lat1) * Real.pi / 180
  let dlam := (lng2 - lng1) * Real.pi / 180
  let a := Real.sin (dphi / 2) * Real.sin (dphi / 2) +
      Real.cos phi1 * Real.cos phi2 * (Real.sin (dlam / 2) * Real.sin (dlam / 2))
  let c := 2 * atan2 (Real.sqrt a) (Real.sqrt (1 - a))
  R * c

/-- isCachedLocationValid (source lines 70-73): the distance between
the new and the cached coordinate is strictly below the threshold. -/
def isCachedLocationValid (newLat newLng cachedLat cachedLng : ℚ) : Prop :=
  calculateDistance newLat newLng cachedLat cachedLng < DISTANCE_THRESHOLD_METERS

/-- The cache-branch condition of performRequest (source line 507): an
entry exists under the quantized key of the position and it passes the
distance gate. -/
def usesCache (cache : LocationCache) (lat lng : ℚ) : Prop :=
  match lookupKey cache (cachedKey lat lng) with
  | some e => isCachedLocationValid lat lng e.lat e.lng
  | none => False

/-- A resolution path is the one the script takes at a given state:
the cache branch exactly when the cache-branch condition holds. -/
def pathOk (st : St) (pos : Coord) : Resolution → Prop
  | .cached => usesCache st.locationCache pos.lat pos.lng
  | .network _ => ¬ usesCache st.locationCache pos.lat pos.lng

/-- Every event of the list takes the path the script would take. -/
def traceOk (st : St) : List TEvent → Prop
  | [] => True
  | e :: rest => pathOk (fired st e.time) e.pos e.res ∧
      traceOk (performRequest (fired st e.time) e.pos e.res e.time) rest

/-! ## Analytic helper lemmas -/

theorem arctan_le_self {t : ℝ} (ht : 0 ≤ t) : Real.arctan t ≤ t := by
  rcases eq_or_lt_of_le ht with h | h
  · simp [← h, Real.arctan_zero]
  · have h0 : 0 < Real.arctan t := by
      have := Real.arctan_strictMono h
      rwa [Real.arctan_zero] at this
    have h2 : Real.arctan t < Real.pi / 2 := Real.arctan_lt_pi_div_two t
    have h3 := Real.lt_tan h0 h2
    rw [Real.tan_arctan] at h3
    exact le_of_lt h3

theorem atan2_of_pos {y x : ℝ} (hx : 0 < x) : atan2 y x = Real.arctan (y / x) := by
  unfold atan2
  rw [if_pos hx]

theorem calculateDistance_self (lat lng : ℝ) : calculateDistance lat lng lat lng = 0 := by
  unfold calculateDistance
  simp only [sub_self, zero_mul, zero_div, Real.sin_zero, mul_zero, zero_add, add_zero,
    Real.sqrt_zero, sub_zero, Real.sqrt_one]
  rw [atan2_of_pos one_pos]
  simp [Real.arctan_zero]

/-- The two test coordinates of the spec are about 14 m apart: the
Haversine distance evaluates to well under the 100 m threshold. -/
theorem paris_distance_lt :
    calculateDistance 48.8567 2.3523 48.8566 2.3522 < 100 := by
  have pi_pos := Real.pi_pos
  have pi_lt : Real.pi < 3.15 := Real.pi_lt_d2
  unfold calculateDistance
  simp only []
  have hlat : ((48.8566:ℝ) - 48.8567) * Real.pi / 180 / 2 = -(Real.pi / 3600000) := by
    rw [show ((48.8566:ℝ) - 48.8567) = -(1/10000) by norm_num]
    ring
  have hlng : ((2.3522:ℝ) - 2.3523) * Real.pi / 180 / 2 = -(Real.pi / 3600000) := by
    rw [show ((2.3522:ℝ) - 2.3523) = -(1/10000) by norm_num]
    ring
  rw [hlat, hlng]
  simp only [Real.sin_neg, neg_mul_neg]
  set s := Real.sin (Real.pi / 3600000) with hs
  set c1 := Real.cos ((48.8567:ℝ) * Real.pi / 180) with hc1
  set c2 := Real.cos ((48.8566:ℝ) * Real.pi / 180) with hc2
  have hx_pos : (0:ℝ) < Real.pi / 3600000 := by positivity
  have hx_le_pi : Real.pi / 3600000 ≤ Real.pi := div_le_self (le_of_lt pi_pos) (by norm_num)
  have hs0 : 0 ≤ s := Real.sin_nonneg_of_nonneg_of_le_pi (le_of_lt hx_pos) hx_le_pi
  have hs_le : s ≤ 1/1000000 := by
    have h := Real.sin_lt hx_pos
    rw [← hs] at h
    linarith
  have hcb1 := Real.neg_one_le_cos ((48.8567:ℝ) * Real.pi / 180)
  have hcb2 := Real.neg_one_le_cos ((48.8566:ℝ) * Real.pi / 180)
  have hcu1 := Real.cos_le_one ((48.8567:ℝ) * Real.pi / 180)
  have hcu2 := Real.cos_le_one ((48.8566:ℝ) * Real.pi / 180)
  have hpl : -1 ≤ c1 * c2 := by nlinarith [sq_nonneg (c1 + c2)]
  have hpu : c1 * c2 ≤ 1 := by nlinarith [sq_nonneg (c1 - c2)]
  have hss_le : s * s ≤ 1/1000000 * (1/1000000) := mul_le_mul hs_le hs_le hs0 (by norm_num)
  have ha0 : 0 ≤ s * s + c1 * c2 * (s * s) := by nlinarith [mul_self_nonneg s]
  have ha_le : s * s + c1 * c2 * (s * s) ≤ 2/1000000000000 := by
    nlinarith [mul_self_nonneg s]
  have h1a : (1:ℝ)/2 ≤ 1 - (s * s + c1 * c2 * (s * s)) := by linarith
  have hB : (0:ℝ) < Real.sqrt (1 - (s * s + c1 * c2 * (s * s))) :=
    Real.sqrt_pos.mpr (by linarith)
  rw [atan2_of_pos hB]
  have hA_le : Real.sqrt (s * s + c1 * c2 * (s * s)) ≤ 15/10000000 := by
    rw [Real.sqrt_le_iff]
    constructor
    · norm_num
    · nlinarith
  have hB_ge : (7:ℝ)/10 ≤ Real.sqrt (1 - (s * s + c1 * c2 * (s * s))) := by
    rw [Real.le_sqrt (by norm_num) (by linarith)]
    norm_num
    linarith
  have ht0 : 0 ≤ Real.sqrt (s * s + c1 * c2 * (s * s)) /
      Real.sqrt (1 - (s * s + c1 * c2 * (s * s))) :=
    div_nonneg (Real.sqrt_nonneg _) (le_of_lt hB)
  have ht_le : Real.sqrt (s * s + c1 * c2 * (s * s)) /
      Real.sqrt (1 - (s * s + c1 * c2 * (s * s))) ≤ (15/10000000) / (7/10) :=
    div_le_div₀ (by norm_num) hA_le (by norm_num) hB_ge
  have harc := arctan_le_self ht0
  linarith

/-! ## Concrete fixtures for the claims -/

def q48_8567 : ℚ := ⟨488567, 10000, by decide, by decide⟩

def q2_3523 : ℚ := ⟨23523, 10000, by decide, by decide⟩

def q48_8566 : ℚ := ⟨244283, 5000, by decide, by decide⟩

def q2_3522 : ℚ := ⟨11761, 5000, by decide, by decide⟩

theorem q48_8567_cast : ((q48_8567 : ℚ) : ℝ) = 48.8567 := by
  rw [Rat.cast_def]; norm_num [q48_8567]

theorem q2_3523_cast : ((q2_3523 : ℚ) : ℝ) = 2.3523 := by
  rw [Rat.cast_def]; norm_num [q2_3523]

theorem q48_8566_cast : ((q48_8566 : ℚ) : ℝ) = 48.8566 := by
  rw [Rat.cast_def]; norm_num [q48_8566]

theorem q2_3522_cast : ((q2_3522 : ℚ) : ℝ) = 2.3522 := by
  rw [Rat.cast_def]; norm_num [q2_3522]

def parisData : NominatimData := ⟨some ⟨some "France", some "Paris", none, none⟩, none⟩

def parisPos : Coord := ⟨q48_8566, q2_3522⟩

def parisPos' : Coord := ⟨q48_8567, q2_3523⟩

def parisSt : St := performRequest initSt parisPos (.network (.ok parisData)) 0

def parisEntry : CacheEntry := ⟨q48_8566, q2_3522, "France, Paris", 0⟩

def hitSt : St :=
  { initSt with
      locationCache := [(cachedKey q48_8566 q2_3522, parisEntry)]
      nominatimErrorCount := 2
      resetTimerExpiry := some 50000 }

def p0 : Coord := ⟨0, 0⟩

def failTrace : List TEvent :=
  [⟨0, p0, .network .err⟩, ⟨1000, p0, .network .err⟩, ⟨40000, p0, .network .err⟩]

/-- Shared helper: an entry found under the quantized key whose stored
coordinate equals the queried one passes the distance gate, because the
distance of a coordinate to itself is zero. -/
theorem usesCache_of_exact (cache : LocationCache) (lat lng : ℚ) (e : CacheEntry)
    (hl : lookupKey cache (cachedKey lat lng) = some e)
    (h1 : e.lat = lat) (h2 : e.lng = lng) : usesCache cache lat lng := by
  unfold usesCache
  rw [hl]
  show calculateDistance _ _ _ _ < DISTANCE_THRESHOLD_METERS
  rw [h1, h2, calculateDistance_self]
  unfold DISTANCE_THRESHOLD_METERS
  norm_num

/-- C1 is refuted: the coordinate (48.8567, 2.3523) is within 100 m of
the entry stored by a successful resolution at (48.8566, 2.3522), yet
its 6-decimal quantized cache key differs from the stored key, so the
cache-branch condition fails and the resolution takes the network
branch instead of returning the cached name. -/
theorem C1_counterexample :
    parisSt.lastValidPlaceName = "France, Paris" ∧
    lookupKey parisSt.locationCache (cachedKey q48_8566 q2_3522) = some parisEntry ∧
    isCachedLocationValid q48_8567 q2_3523 q48_8566 q2_3522 ∧
    ¬ usesCache parisSt.locationCache q48_8567 q2_3523 ∧
    pathOk parisSt parisPos' (Resolution.network FetchResult.err) := by
  have hmiss : lookupKey parisSt.locationCache (cachedKey q48_8567 q2_3523) = none := by decide
  have hnouse : ¬ usesCache parisSt.locationCache q48_8567 q2_3523 := by
    unfold usesCache
    rw [hmiss]
    exact id
  refine ⟨by decide, by decide, ?_, hnouse, hnouse⟩
  show calculateDistance ((q48_8567 : ℚ) : ℝ) ((q2_3523 : ℚ) : ℝ)
      ((q48_8566 : ℚ) : ℝ) ((q2_3522 : ℚ) : ℝ) < 100
  rw [q48_8567_cast, q2_3523_cast, q48_8566_cast, q2_3522_cast]
  exact paris_distance_lt

/-- C1 amended: a resolution returns the cached placeName with no
network request exactly when the cache holds an entry under the exact
6-decimal quantized key of the queried coordinate and that entry passes
the 100 m distance gate; in particular a lookup at precisely the stored
coordinate is served from the cache, leaving the cache unchanged. -/
theorem C1_cache_hit_rule :
    (∀ (cache : LocationCache) (lat lng : ℚ),
        usesCache cache lat lng ↔
          ∃ e, lookupKey cache (cachedKey lat lng) = some e ∧
            isCachedLocationValid lat lng e.lat e.lng) ∧
    (∀ (st : St) (pos : Coord) (e : CacheEntry) (now : ℕ),
        lookupKey st.locationCache (cachedKey pos.lat pos.lng) = some e →
        e.lat = pos.lat → e.lng = pos.lng →
        pathOk st pos Resolution.cached ∧
        (performRequest st pos Resolution.cached now).infoText = "Location: " ++ e.name ∧
        (performRequest st pos Resolution.cached now).locationCache = st.locationCache) := by
  constructor
  · intro cache lat lng
    constructor
    · intro hu
      unfold usesCache at hu
      cases h : lookupKey cache (cachedKey lat lng) with
      | none => rw [h] at hu; exact hu.elim
      | some e => rw [h] at hu; exact ⟨e, rfl, hu⟩
    · rintro ⟨e, he, hv⟩
      unfold usesCache
      rw [he]
      exact hv
  · intro st pos e now hl hlat hlng
    refine ⟨usesCache_of_exact _ _ _ e hl hlat hlng, ?_, ?_⟩
    · unfold performRequest
      rw [hl]
    · unfold performRequest
      rw [hl]

/-- Witness for C1_cache_hit_rule at a concrete cache state. -/
theorem C1_witness :
    pathOk hitSt parisPos Resolution.cached ∧
    (performRequest hitSt parisPos Resolution.cached 0).infoText = "Location: France, Paris" ∧
    (performRequest hitSt parisPos Resolution.cached 0).locationCache = hitSt.locationCache :=
  C1_cache_hit_rule.2 hitSt parisPos parisEntry 0 (by decide) rfl rfl

/-- C2 is refuted: a failed resolution does not arm any reset timer
(from the initial state it leaves the expiry none), and the run of two
failures, a gap of 39 seconds and a third failure does reach the error
status, because no timer was pending to zero the counter in between. -/
theorem C2_counterexample :
    (performRequest initSt p0 (.network .err) 0).resetTimerExpiry = none ∧
    traceOk initSt failTrace ∧
    (runEvents initSt failTrace).panel = PanelStatus.error := by
  refine ⟨by decide, ⟨?_, ?_, ?_, trivial⟩, by decide⟩ <;> exact id

/-- C2 amended: a failed resolution only increments the consecutive
error counter and leaves the reset timer exactly as it was; the 30000
ms reset timer is armed or re-armed by successful network resolutions
instead; consequently two failures, a gap over 30 seconds without a
success, and a third failure drive the counter to the threshold and
the status to error. -/
theorem C2_failure_accounting :
    (∀ (st : St) (pos : Coord) (now : ℕ),
        (performRequest st pos (.network .err) now).nominatimErrorCount =
          st.nominatimErrorCount + 1 ∧
        (performRequest st pos (.network .err) now).resetTimerExpiry =
          st.resetTimerExpiry) ∧
    (∀ (st : St) (pos : Coord) (data : NominatimData) (now : ℕ),
        (performRequest st pos (.network (.ok data)) now).resetTimerExpiry =
          some (now + NOMINATIM_ERROR_RESET_TIMEOUT)) ∧
    (runEvents initSt failTrace).nominatimErrorCount = 3 ∧
    (runEvents initSt failTrace).panel = PanelStatus.error := by
  refine ⟨?_, ?_, by decide, by decide⟩
  · intro st pos now
    simp only [performRequest]
    split <;> exact ⟨rfl, rfl⟩
  · intro st pos data now
    simp only [performRequest]

/-- C3 is refuted: a cache hit is a successful resolution, yet from a
state with two accumulated failures and a pending reset timer it leaves
the counter at 2 and the timer pending, only updating the last valid
name and the display text. -/
theorem C3_counterexample :
    pathOk hitSt parisPos Resolution.cached ∧
    hitSt.nominatimErrorCount = 2 ∧
    hitSt.resetTimerExpiry = some 50000 ∧
    (performRequest hitSt parisPos Resolution.cached 0).nominatimErrorCount = 2 ∧
    (performRequest hitSt parisPos Resolution.cached 0).resetTimerExpiry = some 50000 ∧
    (performRequest hitSt parisPos Resolution.cached 0).lastValidPlaceName =
      "France, Paris" := by
  refine ⟨?_, by decide, by decide, by decide, by decide, by decide⟩
  show usesCache hitSt.locationCache parisPos.lat parisPos.lng
  exact usesCache_of_exact hitSt.locationCache parisPos.lat parisPos.lng parisEntry
    (by decide) rfl rfl

/-- C3 amended: only a successful network resolution zeroes the
consecutive failure counter, and it re-arms (rather than merely
cancels) the 30 s reset timer; a cache hit changes neither the counter
nor the timer nor the panel class; the connected indicator is set by
the position-update path, not by the resolution outcome. -/
theorem C3_success_reset :
    (∀ (st : St) (pos : Coord) (now : ℕ),
        (performRequest st pos Resolution.cached now).nominatimErrorCount =
          st.nominatimErrorCount ∧
        (performRequest st pos Resolution.cached now).resetTimerExpiry =
          st.resetTimerExpiry ∧
        (performRequest st pos Resolution.cached now).panel = st.panel) ∧
    (∀ (st : St) (pos : Coord) (data : NominatimData) (now : ℕ),
        (performRequest st pos (.network (.ok data)) now).nominatimErrorCount = 0 ∧
        (performRequest st pos (.network (.ok data)) now).resetTimerExpiry =
          some (now + NOMINATIM_ERROR_RESET_TIMEOUT) ∧
        (performRequest st pos (.network (.ok data)) now).panel = st.panel) ∧
    (∀ st : St, (updateMinimapStatus st).panel = PanelStatus.connected) := by
  refine ⟨?_, ?_, fun st => rfl⟩
  · intro st pos now
    simp only [performRequest]
    split <;> exact ⟨rfl, rfl, rfl⟩
  · intro st pos data now
    exact ⟨rfl, rfl, rfl⟩

def degSt : St := { initSt with lastValidPlaceName := "France, Paris", nominatimErrorCount := 2 }

/-- C4 is refuted: at the threshold the script shows the fixed text
Location Service Unavailable even though a last valid place exists; the
last-known annotation is never shown at the threshold. -/
theorem C4_counterexample :
    degSt.lastValidPlaceName ≠ "Unknown" ∧
    (performRequest degSt p0 (.network .err) 0).panel = PanelStatus.error ∧
    (performRequest degSt p0 (.network .err) 0).infoText =
      "Location: Location Service Unavailable" ∧
    (performRequest degSt p0 (.network .err) 0).infoText ≠
      "Location: France, Paris (Last Known)" := by
  refine ⟨by decide, by decide, by decide, by decide⟩

/-- C4 amended: when the counter reaches the threshold 3 the status
becomes error and the text is the fixed Location Service Unavailable
placeholder regardless of any last valid place; below the threshold the
failure text is the last valid place annotated Last Known when one
exists, and the name-unavailable placeholder otherwise. -/
theorem C4_degraded_display :
    ∀ (st : St) (pos : Coord) (now : ℕ),
      (NOMINATIM_ERROR_THRESHOLD ≤ st.nominatimErrorCount + 1 →
        (performRequest st pos (.network .err) now).panel = PanelStatus.error ∧
        (performRequest st pos (.network .err) now).infoText =
          "Location: Location Service Unavailable") ∧
      (st.nominatimErrorCount + 1 < NOMINATIM_ERROR_THRESHOLD →
        (performRequest st pos (.network .err) now).panel = st.panel ∧
        (performRequest st pos (.network .err) now).infoText =
          "Location: " ++
            (if st.lastValidPlaceName ≠ "Unknown" then
              st.lastValidPlaceName ++ " (Last Known)"
            else "Location Name Unavailable")) := by
  intro st pos now
  constructor
  · intro h
    simp only [performRequest, if_pos h]
    trivial
  · intro h
    simp only [performRequest, if_neg (not_le.mpr h)]
    trivial

/-- Witness for C4_degraded_display at and below the threshold. -/
theorem C4_witness :
    ((performRequest degSt p0 (.network .err) 0).panel = PanelStatus.error ∧
      (performRequest degSt p0 (.network .err) 0).infoText =
        "Location: Location Service Unavailable") ∧
    ((performRequest initSt p0 (.network .err) 0).panel = PanelStatus.disconnected ∧
      (performRequest initSt p0 (.network .err) 0).infoText =
        "Location: Location Name Unavailable") := by
  constructor
  · exact (C4_degraded_display degSt p0 0).1 (by decide)
  · have h := (C4_degraded_display initSt p0 0).2 (by decide)
    exact ⟨h.1, h.2⟩

/-- C5: each updateInfoPanel call cancels a still-pending debounce
timer and schedules a fresh one 2000 ms after itself, so two calls
within one debounce window fire performRequest exactly once, 2000 ms
after the latest call; each firing issues at most one network
request. -/
theorem C5_debounce :
    ∀ t1 t2 : ℕ, t1 ≤ t2 → t2 < t1 + 2000 →
      debounceRun none [t1, t2] = [t2 + 2000] := by
  intro t1 t2 h1 h2
  simp only [debounceRun]
  rw [if_neg (by omega : ¬ t1 + 2000 ≤ t2)]

/-- Witness for C5_debounce at call times 0 and 1000. -/
theorem C5_witness : debounceRun none [0, 1000] = [3000] :=
  C5_debounce 0 1000 (by decide) (by decide)

/-- C6: the reuse gate holds exactly when the Haversine distance is
strictly below 100 meters, and fails exactly when the distance is 100
meters or more: the boundary of exactly 100 meters is excluded. -/
theorem C6_reuse_threshold :
    ∀ a1 b1 a2 b2 : ℚ,
      (isCachedLocationValid a1 b1 a2 b2 ↔
        calculateDistance a1 b1 a2 b2 < 100) ∧
      (¬ isCachedLocationValid a1 b1 a2 b2 ↔
        (100:ℝ) ≤ calculateDistance a1 b1 a2 b2) := by
  intro a1 b1 a2 b2
  unfold isCachedLocationValid DISTANCE_THRESHOLD_METERS
  exact ⟨Iff.rfl, not_lt⟩

/-- C7: with a structured address and a truthy locality the composed
name is country comma locality; with no truthy city, town or village it
is the country alone; with no structured address it is the display_name
field, or the No-details-found placeholder when that is absent; the two
example addresses of the spec compose to Italy, Rome and Italy. -/
theorem C7_place_name_composition :
    (∀ (a : Address) (dn : Option String), cityOf a ≠ "" →
        composePlaceName ⟨some a, dn⟩ = countryOf a ++ ", " ++ cityOf a) ∧
    (∀ (a : Address) (dn : Option String), cityOf a = "" →
        composePlaceName ⟨some a, dn⟩ = countryOf a) ∧
    (∀ d : String, d ≠ "" → composePlaceName ⟨none, some d⟩ = d) ∧
    composePlaceName ⟨none, none⟩ = "No details found" ∧
    composePlaceName ⟨some ⟨some "Italy", some "Rome", none, none⟩, none⟩ = "Italy, Rome" ∧
    composePlaceName ⟨some ⟨some "Italy", none, none, none⟩, none⟩ = "Italy" := by
  refine ⟨?_, ?_, ?_, rfl, rfl, rfl⟩
  · intro a dn h
    simp [composePlaceName, h]
  · intro a dn h
    simp [composePlaceName, h]
  · intro d h
    simp [composePlaceName, jsOrStr, h]

/-- Witness for C7_place_name_composition at the example addresses. -/
theorem C7_witness :
    composePlaceName ⟨some ⟨some "Italy", some "Rome", none, none⟩, none⟩ =
      countryOf ⟨some "Italy", some "Rome", none, none⟩ ++ ", " ++
        cityOf ⟨some "Italy", some "Rome", none, none⟩ ∧
    composePlaceName ⟨some ⟨some "Italy", none, none, none⟩, none⟩ =
      countryOf ⟨some "Italy", none, none, none⟩ ∧
    composePlaceName ⟨none, some "Palazzo, Roma"⟩ = "Palazzo, Roma" :=
  ⟨C7_place_name_composition.1 _ none (by decide),
    C7_place_name_composition.2.1 _ none (by decide),
    C7_place_name_composition.2.2.1 _ (by decide)⟩

/-- Shared helper: looking up the key just inserted returns the new
entry. -/
theorem lookupKey_insertKey (c : LocationCache) (k : String) (v : CacheEntry) :
    lookupKey (insertKey c k v) k = some v := by
  induction c with
  | nil => simp [insertKey, lookupKey]
  | cons hd t ih =>
      obtain ⟨k', v'⟩ := hd
      by_cases hk : k' = k
      · simp [insertKey, hk, lookupKey]
      · simp [insertKey, hk, lookupKey, ih]

def emptyAddrData : NominatimData := ⟨some ⟨none, none, none, none⟩, none⟩

def noDetailsData : NominatimData := ⟨none, none⟩

/-- C8 is refuted on the non-emptiness part: an address object with no
truthy country and no truthy locality composes to the empty name, which
passes the store condition, so the empty name is cached and becomes the
last valid place name. -/
theorem C8_counterexample :
    composePlaceName emptyAddrData = "" ∧
    storeB emptyAddrData = true ∧
    lookupKey (performRequest initSt p0 (.network (.ok emptyAddrData)) 0).locationCache
      (cachedKey p0.lat p0.lng) = some ⟨p0.lat, p0.lng, "", 0⟩ ∧
    (performRequest initSt p0 (.network (.ok emptyAddrData)) 0).lastValidPlaceName = "" := by
  refine ⟨rfl, rfl, by decide, by decide⟩

/-- C8 amended: the failure branch and the cache branch never modify
the cache, and the failure branch never changes the last valid name; a
network success stores and records the composed name exactly when the
store condition holds, a condition that compares against the
placeholders but does not require non-emptiness, so the empty composed
name is stored. -/
theorem C8_store_condition :
    (∀ (st : St) (pos : Coord) (now : ℕ),
        (performRequest st pos (.network .err) now).locationCache = st.locationCache ∧
        (performRequest st pos (.network .err) now).lastValidPlaceName =
          st.lastValidPlaceName) ∧
    (∀ (st : St) (pos : Coord) (now : ℕ),
        (performRequest st pos Resolution.cached now).locationCache = st.locationCache) ∧
    (∀ (st : St) (pos : Coord) (data : NominatimData) (now : ℕ),
        storeB data = false →
        (performRequest st pos (.network (.ok data)) now).locationCache = st.locationCache ∧
        (performRequest st pos (.network (.ok data)) now).lastValidPlaceName =
          st.lastValidPlaceName) ∧
    (∀ (st : St) (pos : Coord) (data : NominatimData) (now : ℕ),
        storeB data = true →
        lookupKey (performRequest st pos (.network (.ok data)) now).locationCache
            (cachedKey pos.lat pos.lng) =
          some ⟨pos.lat, pos.lng, composePlaceName data, now⟩ ∧
        (performRequest st pos (.network (.ok data)) now).lastValidPlaceName =
          composePlaceName data) ∧
    storeB emptyAddrData = true ∧ composePlaceName emptyAddrData = "" := by
  refine ⟨?_, ?_, ?_, ?_, rfl, rfl⟩
  · intro st pos now
    simp only [performRequest]
    split <;> exact ⟨rfl, rfl⟩
  · intro st pos now
    simp only [performRequest]
    split <;> rfl
  · intro st pos data now h
    simp [performRequest, h]
  · intro st pos data now h
    simp only [performRequest, h, if_true]
    exact ⟨lookupKey_insertKey _ _ _, trivial⟩

/-- Witness for C8_store_condition on a storing and a non-storing
response. -/
theorem C8_witness :
    (lookupKey (performRequest initSt parisPos (.network (.ok parisData)) 0).locationCache
        (cachedKey parisPos.lat parisPos.lng) =
      some ⟨parisPos.lat, parisPos.lng, composePlaceName parisData, 0⟩ ∧
     (performRequest initSt parisPos (.network (.ok parisData)) 0).lastValidPlaceName =
       composePlaceName parisData) ∧
    ((performRequest initSt p0 (.network (.ok noDetailsData)) 0).locationCache =
        initSt.locationCache ∧
     (performRequest initSt p0 (.network (.ok noDetailsData)) 0).lastValidPlaceName =
       initSt.lastValidPlaceName) :=
  ⟨C8_store_condition.2.2.2.1 initSt parisPos parisData 0 (by decide),
    C8_store_condition.2.2.1 initSt p0 noDetailsData 0 (by decide)⟩

def infFrames : List Iframe :=
  [⟨"https://www.google.com/maps/embed/v1/streetview?location=Infinity,0",
    [("location", "Infinity,0")]⟩]

def frame200 : Iframe :=
  ⟨"https://www.google.com/maps/embed/v1/streetview?location=200,300",
    [("location", "200,300")]⟩

def frames200 : List Iframe := [frame200]

/-- C9 is refuted on the finiteness part: the location parameter
Infinity,0 has a first component that converts to the non-finite
Infinity value, which passes the isNaN check, so getCurrentPosition
returns it instead of absent. -/
theorem C9_counterexample :
    getCurrentPosition infFrames = some (JSNum.inf false, JSNum.fin 0) ∧
    getCurrentPosition infFrames ≠ none ∧
    (JSNum.inf false).isNaN = false := by
  refine ⟨by decide, by decide, rfl⟩

/-- C9 amended: getCurrentPosition returns absent when no iframe
matches the panorama-embed pattern, when the location parameter is
missing or falsy, or when either of the first two comma-separated
components converts to NaN; otherwise it returns the two converted
components unchanged — the check is isNaN, not finiteness. -/
theorem C9_absent_conditions :
    ∀ frames : List Iframe,
      (findStreetViewIframe frames = none → getCurrentPosition frames = none) ∧
      (∀ f, findStreetViewIframe frames = some f →
        (getParam f.params "location" = none → getCurrentPosition frames = none) ∧
        (∀ loc, getParam f.params "location" = some loc →
          (loc = "" → getCurrentPosition frames = none) ∧
          ((locComponent loc 0).isNaN = true ∨ (locComponent loc 1).isNaN = true →
            getCurrentPosition frames = none) ∧
          (loc ≠ "" → (locComponent loc 0).isNaN = false →
            (locComponent loc 1).isNaN = false →
            getCurrentPosition frames =
              some (locComponent loc 0, locComponent loc 1)))) := by
  intro frames
  refine ⟨?_, ?_⟩
  · intro h
    simp [getCurrentPosition, h]
  · intro f hf
    refine ⟨?_, ?_⟩
    · intro h
      simp [getCurrentPosition, hf, h]
    · intro loc hloc
      refine ⟨?_, ?_, ?_⟩
      · intro h
        simp [getCurrentPosition, hf, hloc, h]
      · intro h
        rcases h with h | h <;> simp [getCurrentPosition, hf, hloc, h]
      · intro hne h0 h1
        simp [getCurrentPosition, hf, hloc, hne, h0, h1]

/-- Witness for C9_absent_conditions on a concrete page. -/
theorem C9_witness :
    getCurrentPosition frames200 =
      some (locComponent "200,300" 0, locComponent "200,300" 1) :=
  (((C9_absent_conditions frames200).2 frame200 (by decide)).2 "200,300"
    (by decide)).2.2 (by decide) (by decide) (by decide)

/-- C10: no range validation is performed: whenever the first two
comma-separated components of the location parameter convert to
non-NaN numbers they are returned unchanged, and in particular
location 200,300 yields latitude 200 and longitude 300, far outside
the valid coordinate ranges. -/
theorem C10_no_range_validation :
    (∀ (frames : List Iframe) (f : Iframe) (loc : String) (a b : ℚ),
        findStreetViewIframe frames = some f →
        getParam f.params "location" = some loc →
        locComponent loc 0 = JSNum.fin a →
        locComponent loc 1 = JSNum.fin b →
        getCurrentPosition frames = some (JSNum.fin a, JSNum.fin b)) ∧
    getCurrentPosition frames200 = some (JSNum.fin 200, JSNum.fin 300) ∧
    (200:ℚ) > 90 ∧ (300:ℚ) > 180 := by
  refine ⟨?_, by decide, by norm_num, by norm_num⟩
  · intro frames f loc a b hf hloc h0 h1
    have hne : loc ≠ "" := by
      intro he
      subst he
      rw [show locComponent "" 1 = JSNum.nan from by decide] at h1
      cases h1
    simp [getCurrentPosition, hf, hloc, hne, h0, h1, JSNum.isNaN]

/-- Witness for C10_no_range_validation at location 200,300. -/
theorem C10_witness :
    getCurrentPosition frames200 = some (JSNum.fin 200, JSNum.fin 300) :=
  C10_no_range_validation.1 frames200 frame200 "200,300" 200 300 (by decide)
    (by decide) (by decide) (by decide)

end OpenGuessr
